import Mathlib

/-!
Verification development for `js_summarizer.py` (JS-aware web summarizer).

The program is embedded shallowly:

* HTML documents, as produced by the permissive BeautifulSoup parser, are
  modelled as `Forest` values; the parser itself is an external
  collaborator and appears as a function `parse : String → Forest`
  carried in the environment `Env`.
* The other external collaborators (the network `requests.get`, the rendered
  Selenium page source, the readability `Document`, the sha256-based URL
  fingerprint, and wall-clock durations) are likewise fields of `Env`.
* The on-disk cache directory is an association list from file names to
  blobs.  The program only ever stores UTF-8 encodings of Python strings and
  decodes them back with `errors="ignore"`, so blobs are modelled directly
  as the decoded strings (encode/decode round-trips to the identity there);
  the emptiness of a blob coincides with the emptiness of its byte string.
* Python floats (`elapsed`) are modelled as rationals supplied by `Env`.
* Network and browser invocations are made observable by instrumenting
  `smart_fetch` with a chronological list of `Event`s.
-/

namespace JsSummarizer

set_option maxRecDepth 8000

/-- A parsed HTML forest — the soup BeautifulSoup hands back — in
first-child/next-sibling form (isomorphic to lists of node trees, but a
single non-nested inductive, so all recursions below are structural): empty,
a text fragment followed by its siblings, or an element with a tag name, its
children, and its siblings. -/
inductive Forest where
  | nil
  | text (s : String) (rest : Forest)
  | elem (tag : String) (children : Forest) (rest : Forest)

/-- The tag names removed by `strip_noise` (source line 32). -/
def noise_tags : List String := ["script", "style", "noscript"]

/-- All text fragments of a forest in document order (what BeautifulSoup's
`get_text` visits). -/
def forest_texts : Forest → List String
  | .nil => []
  | .text s rest => s :: forest_texts rest
  | .elem _ cs rest => forest_texts cs ++ forest_texts rest

/-- `for tag in soup(["script","style","noscript"]): tag.extract()` — remove
every script/style/noscript subtree, at any depth, from the forest. -/
def extract_noise : Forest → Forest
  | .nil => .nil
  | .text s rest => .text s (extract_noise rest)
  | .elem tag cs rest =>
      if tag ∈ noise_tags then extract_noise rest
      else .elem tag (extract_noise cs) (extract_noise rest)

/-- The ASCII part of Python's `str.strip` whitespace set. -/
def py_ws (c : Char) : Bool :=
  c == ' ' || c == '\t' || c == '\n' || c == '\r' || c == '\x0b' || c == '\x0c'

/-- Python `str.strip()` on a string's characters. -/
def py_strip (s : String) : String :=
  String.mk (((s.data.dropWhile py_ws).reverse.dropWhile py_ws).reverse)

/-- BeautifulSoup `get_text(" ", strip=True)`: strip each text fragment, drop
the ones that become empty, and join the rest with a single space. -/
def get_text_sep_strip (f : Forest) : String :=
  String.intercalate " " (((forest_texts f).map py_strip).filter (fun s => s != ""))

/-- `strip_noise` (source lines 30-33): parse, extract the noise subtrees,
then `get_text(" ", strip=True)`. -/
def strip_noise (parse : String → Forest) (html_text : String) : String :=
  get_text_sep_strip (extract_noise (parse html_text))

/-- The text fragments of a forest that do NOT lie inside any
script/style/noscript element — the fragments `strip_noise` may use. -/
def clean_texts : Forest → List String
  | .nil => []
  | .text s rest => s :: clean_texts rest
  | .elem tag cs rest =>
      (if tag ∈ noise_tags then [] else clean_texts cs) ++ clean_texts rest

/-- The character class of the regex as it is written in the source,
`r'<script[\\s>]'` (line 36): a literal backslash, the letter `s`
(case-insensitively, because of `re.I`), or `>`. -/
def script_open_char (c : Char) : Bool :=
  c == '\\' || c.toLower == 's' || c == '>'

/-- Does the source regex match at the head of this character list? -/
def script_open_at : List Char → Bool
  | c1 :: c2 :: c3 :: c4 :: c5 :: c6 :: c7 :: c8 :: _ =>
      ([c1, c2, c3, c4, c5, c6, c7].map Char.toLower == "<script".data)
        && script_open_char c8
  | _ => false

/-- `len(re.findall(r'<script[\\s>]', html, re.I))`.  Matches of this
8-character pattern can never overlap (none of the 7 trailing characters of a
match can be `<`), so counting every matching start position equals
`re.findall`'s non-overlapping count. -/
def count_script_opens : List Char → Nat
  | [] => 0
  | c :: rest => (if script_open_at (c :: rest) then 1 else 0) + count_script_opens rest

/-- `looks_js_heavy` (source lines 35-37). -/
def looks_js_heavy (parse : String → Forest) (html_text : String) : Bool :=
  let scripts := count_script_opens html_text.data
  decide (scripts > 20) || decide ((strip_noise parse html_text).length < 400)

/-- Modelled from the spec: the count of `<script` tag openings
(case-insensitive), i.e. occurrences of `<script` followed by whitespace or
`>` — what the regex `<script[\s>]` (single backslash) counts.  Needed
because the file as shipped doubles every backslash (compare the
`print("\\n...")` on line 151), so the regex actually written matches a
literal backslash instead of whitespace. -/
def spec_script_opening_at : List Char → Bool
  | c1 :: c2 :: c3 :: c4 :: c5 :: c6 :: c7 :: c8 :: _ =>
      ([c1, c2, c3, c4, c5, c6, c7].map Char.toLower == "<script".data)
        && (py_ws c8 || c8 == '>')
  | _ => false

/-- Modelled from the spec: total count of `<script` tag openings. -/
def spec_script_openings : List Char → Nat
  | [] => 0
  | c :: rest => (if spec_script_opening_at (c :: rest) then 1 else 0) + spec_script_openings rest

/-- `short` (source lines 95-96): `txt[:n] + ("…" if len(txt) > n else "")`.
Python slices and `len` count code points, as `String.data` does. -/
def short (txt : String) (n : Nat) : String :=
  String.mk (txt.data.take n) ++ (if n < txt.data.length then "…" else "")

deriving instance DecidableEq for Except

/-- The dict built by the fetch strategies (url / method / html / text /
elapsed, source lines 47, 64, 71).  `elapsed` is a Python float, modelled as
a rational. -/
structure FetchResult where
  url : String
  method : String
  html : String
  text : String
  elapsed : ℚ
  deriving DecidableEq

/-- The external collaborators of the program. -/
structure Env where
  /-- BeautifulSoup(·, "lxml"): permissive parsing into a forest. -/
  parse : String → Forest
  /-- `requests.get(url, ...).text` after `raise_for_status` — the body, or
  the raised exception. -/
  get : String → Except String String
  /-- the Selenium driver's `page_source` after navigation and the optional
  CSS wait — or the raised exception (timeout, navigation failure). -/
  page : String → Option String → Except String String
  /-- `Document(html)`: `(short_title, summary(html_partial=True))`, or the
  raised exception. -/
  readability : String → Except String (String × String)
  /-- `_key`: the truncated sha256 hex fingerprint of a string (line 26). -/
  key : String → String
  /-- duration measured around the static fetch. -/
  tStatic : ℚ
  /-- duration measured around the Selenium fetch. -/
  tSelenium : ℚ

/-- The cache directory: file name ↦ blob (modelled as the decoded string,
see the module comment).  Newest binding first, so prepending overwrites. -/
abbrev Cache := List (String × String)

/-- `_cache_write` (line 27): persist a named blob, overwriting. -/
def _cache_write (c : Cache) (name : String) (data : String) : Cache :=
  (name, data) :: c

/-- `_cache_read` (line 28): the blob if present, else absence. -/
def _cache_read (c : Cache) (name : String) : Option String :=
  c.lookup name

/-- One observable strategy invocation. -/
inductive Event where
  | staticCall (url : String)
  | seleniumCall (url : String) (wait_css : Option String)
  deriving DecidableEq

/-- `fetch_static` (lines 42-47). -/
def fetch_static (env : Env) (url : String) : Except String FetchResult :=
  match env.get url with
  | .error e => .error e
  | .ok html_text =>
      .ok ⟨url, "requests", html_text, strip_noise env.parse html_text, env.tStatic⟩

/-- `fetch_selenium` (lines 49-64).  The driver teardown in `finally` has no
observable effect on the value computed here. -/
def fetch_selenium (env : Env) (url : String) (wait_css : Option String) :
    Except String FetchResult :=
  match env.page url wait_css with
  | .error e => .error e
  | .ok html_text =>
      .ok ⟨url, "selenium", html_text, strip_noise env.parse html_text, env.tSelenium⟩

/-- The `except Exception` handler of `smart_fetch` (lines 81-84): one
fallback with the strategy chosen opposite to `force_js`; a failure of the
fallback itself propagates, and nothing is written in that case.  `ev` is the
chronological list of strategy invocations made so far. -/
def smart_fetch_rescue (env : Env) (c : Cache) (url : String) (force_js : Bool)
    (wait_css : Option String) (ck : String) (ev : List Event) :
    Except String FetchResult × Cache × List Event :=
  if force_js then
    match fetch_static env url with
    | .error e => (.error e, c, ev ++ [.staticCall url])
    | .ok alt => (.ok alt, _cache_write c ck alt.html, ev ++ [.staticCall url])
  else
    match fetch_selenium env url wait_css with
    | .error e => (.error e, c, ev ++ [.seleniumCall url wait_css])
    | .ok alt => (.ok alt, _cache_write c ck alt.html, ev ++ [.seleniumCall url wait_css])

/-- The `try` block of `smart_fetch` (lines 72-80), with the handler above
catching any exception of the primary attempt. -/
def smart_fetch_try (env : Env) (c : Cache) (url : String) (force_js : Bool)
    (wait_css : Option String) (ck : String) :
    Except String FetchResult × Cache × List Event :=
  if force_js then
    match fetch_selenium env url wait_css with
    | .error _ => smart_fetch_rescue env c url force_js wait_css ck [.seleniumCall url wait_css]
    | .ok s => (.ok s, _cache_write c ck s.html, [.seleniumCall url wait_css])
  else
    match fetch_static env url with
    | .error _ => smart_fetch_rescue env c url force_js wait_css ck [.staticCall url]
    | .ok s =>
      if looks_js_heavy env.parse s.html then
        match fetch_selenium env url wait_css with
        | .error _ =>
            smart_fetch_rescue env c url force_js wait_css ck
              [.staticCall url, .seleniumCall url wait_css]
        | .ok s2 =>
            (.ok s2, _cache_write c ck s2.html,
              [.staticCall url, .seleniumCall url wait_css])
      else
        (.ok s, _cache_write c ck s.html, [.staticCall url])

/-- `smart_fetch` (lines 66-84).  `if cached:` is Python truthiness on bytes,
so an empty blob is treated exactly like an absent one.  The decode with
`errors="ignore"` is the identity on the stored blobs (module comment). -/
def smart_fetch (env : Env) (c : Cache) (url : String) (force_js : Bool)
    (wait_css : Option String) :
    Except String FetchResult × Cache × List Event :=
  let ck := "raw_" ++ env.key url ++ ".html"
  match _cache_read c ck with
  | some cached =>
      if cached = "" then smart_fetch_try env c url force_js wait_css ck
      else
        (.ok ⟨url, "cache", cached, strip_noise env.parse cached, 0⟩, c, [])
  | none => smart_fetch_try env c url force_js wait_css ck

/-- `extract_main_content` (lines 86-93).  The readability collaborator
yields the pair `(short_title, summary)` or raises; on any error the function
falls back to an empty title and `strip_noise` over the whole input.  The
`url` parameter is accepted and unused, as in the source. -/
def extract_main_content (env : Env) (html_text : String) (url : String) :
    String × String :=
  match env.readability html_text with
  | .ok p => (p.1, strip_noise env.parse p.2)
  | .error _ => ("", strip_noise env.parse html_text)

/-- 400 characters of visible text. -/
def text400 : String := String.mk (List.replicate 400 'a')

/-- A parser whose soup is always a single 400-character text node. -/
def parse400 : String → Forest := fun _ => Forest.text text400 Forest.nil

/-- A parser whose soup is always empty. -/
def parse_empty : String → Forest := fun _ => Forest.nil

/-- 21 script tags. -/
def heavy_html : String := String.join (List.replicate 21 "<script>")

/-- 21 script-tag openings whose 8th character is a space. -/
def html_spaced_scripts : String := String.join (List.replicate 21 "<script defer>")

/-- A readability collaborator that always raises. -/
def readability_fail : String → Except String (String × String) :=
  fun _ => .error "readability"

/-- A fingerprint function for concrete runs. -/
def key_k : String → String := fun _ => "k"

/-- Static fetch succeeds with text-rich HTML; the browser also succeeds. -/
def env_light : Env :=
  ⟨parse400, fun _ => .ok "<p>body</p>", fun _ _ => .ok "<p>rendered</p>",
    readability_fail, key_k, 1, 2⟩

/-- Static fetch succeeds with script-heavy HTML; the browser always raises. -/
def env_heavy_selfail : Env :=
  ⟨parse400, fun _ => .ok heavy_html, fun _ _ => .error "sel down",
    readability_fail, key_k, 1, 2⟩

/-- Both strategies always raise. -/
def env_bothfail : Env :=
  ⟨parse400, fun _ => .error "net down", fun _ _ => .error "sel down",
    readability_fail, key_k, 1, 2⟩

/-- The browser renders an empty page; the static fetch always raises. -/
def env_selempty : Env :=
  ⟨parse_empty, fun _ => .error "net down", fun _ _ => .ok "",
    readability_fail, key_k, 1, 2⟩

/-- A store already holding a non-empty raw-HTML blob for fingerprint `k`. -/
def cache_hi : Cache := [("raw_k.html", "<p>hi</p>")]

theorem cache_read_write (c : Cache) (name data : String) :
    _cache_read (_cache_write c name data) name = some data := by
  simp [_cache_read, _cache_write, List.lookup]

theorem smart_fetch_cache_hit (env : Env) (c : Cache) (url : String)
    (force_js : Bool) (wait_css : Option String) (blob : String)
    (hread : _cache_read c ("raw_" ++ env.key url ++ ".html") = some blob)
    (hne : blob ≠ "") :
    smart_fetch env c url force_js wait_css =
      (.ok ⟨url, "cache", blob, strip_noise env.parse blob, 0⟩, c, []) := by
  simp [smart_fetch, hread, hne]

theorem try_ok_cache (env : Env) (c : Cache) (url : String) (force_js : Bool)
    (wait_css : Option String) (ck : String) (o : FetchResult) (c' : Cache)
    (ev : List Event)
    (h : smart_fetch_try env c url force_js wait_css ck = (.ok o, c', ev)) :
    c' = _cache_write c ck o.html := by
  unfold smart_fetch_try smart_fetch_rescue at h
  repeat' split at h
  all_goals simp_all
  all_goals
    obtain ⟨h1, h2, h3⟩ := h
  all_goals subst h1
  all_goals exact h2.symm

theorem smart_fetch_no_hit (env : Env) (c : Cache) (url : String)
    (force_js : Bool) (wait_css : Option String)
    (hmiss : ∀ b, _cache_read c ("raw_" ++ env.key url ++ ".html") = some b → b = "") :
    smart_fetch env c url force_js wait_css =
      smart_fetch_try env c url force_js wait_css ("raw_" ++ env.key url ++ ".html") := by
  unfold smart_fetch
  cases hr : _cache_read c ("raw_" ++ env.key url ++ ".html") with
  | none => simp [hr]
  | some b =>
      have hb := hmiss b hr
      subst hb
      simp [hr]

theorem smart_fetch_ok_writes (env : Env) (c : Cache) (url : String)
    (force_js : Bool) (wait_css : Option String) (o : FetchResult) (c' : Cache)
    (ev : List Event)
    (h : smart_fetch env c url force_js wait_css = (.ok o, c', ev))
    (hm : o.method ≠ "cache") :
    _cache_read c' ("raw_" ++ env.key url ++ ".html") = some o.html := by
  cases hr : _cache_read c ("raw_" ++ env.key url ++ ".html") with
  | some b =>
      by_cases hb : b = ""
      · subst hb
        rw [smart_fetch_no_hit env c url force_js wait_css
          (by
            intro b' hb'
            rw [hr] at hb'
            exact (Option.some.inj hb').symm)] at h
        have hc := try_ok_cache _ _ _ _ _ _ _ _ _ h
        subst hc
        exact cache_read_write _ _ _
      · rw [smart_fetch_cache_hit env c url force_js wait_css b hr hb] at h
        have h1 : (⟨url, "cache", b, strip_noise env.parse b, 0⟩ : FetchResult) = o := by
          have h2 := congrArg Prod.fst h
          simpa using h2
        exact absurd (by rw [← h1]) hm
  | none =>
      rw [smart_fetch_no_hit env c url force_js wait_css
        (by
          intro b' hb'
          rw [hr] at hb'
          exact Option.noConfusion hb')] at h
      have hc := try_ok_cache _ _ _ _ _ _ _ _ _ h
      subst hc
      exact cache_read_write _ _ _

theorem forest_texts_extract (f : Forest) :
    forest_texts (extract_noise f) = clean_texts f := by
  induction f with
  | nil => simp [extract_noise, forest_texts, clean_texts]
  | text s rest ih => simp [extract_noise, forest_texts, clean_texts, ih]
  | elem tag cs rest ih1 ih2 =>
      by_cases htag : tag ∈ noise_tags
      · simp [extract_noise, forest_texts, clean_texts, htag, ih1, ih2]
      · simp [extract_noise, forest_texts, clean_texts, htag, ih1, ih2]

/-- C1 (amended): if the Content Store holds a NON-EMPTY raw-HTML blob under
the URL's fingerprint, `smart_fetch` returns immediately a FetchResult with
method "cache", elapsed 0, html equal to the decoded blob and text equal to
the Noise Stripper applied to that html, invoking neither strategy (empty
event list) and leaving the store untouched.  The non-emptiness hypothesis
is forced by the Python truthiness test `if cached:` on line 69, which
treats an empty blob as absent — see `c1_counterexample`. -/
theorem c1_cache_hit (env : Env) (c : Cache) (url : String) (force_js : Bool)
    (wait_css : Option String) (blob : String)
    (hread : _cache_read c ("raw_" ++ env.key url ++ ".html") = some blob)
    (hne : blob ≠ "") :
    smart_fetch env c url force_js wait_css =
      (.ok ⟨url, "cache", blob, strip_noise env.parse blob, 0⟩, c, []) :=
  smart_fetch_cache_hit env c url force_js wait_css blob hread hne

/-- Witness for `c1_cache_hit` at a concrete store and environment. -/
theorem c1_cache_hit_witness :
    smart_fetch env_light cache_hi "u" false none =
      (.ok ⟨"u", "cache", "<p>hi</p>", strip_noise env_light.parse "<p>hi</p>", 0⟩,
        cache_hi, []) :=
  c1_cache_hit env_light cache_hi "u" false none "<p>hi</p>" (by decide) (by decide)

/-- C1 counterexample (claim as stated): the store holds a raw-HTML blob —
the empty one — under the URL's fingerprint, yet `smart_fetch` does not
return a cache outcome: it invokes the lightweight strategy, returns method
"requests", and writes the store. -/
theorem c1_counterexample :
    smart_fetch env_light [("raw_k.html", "")] "u" false none =
      (.ok ⟨"u", "requests", "<p>body</p>", text400, 1⟩,
        [("raw_k.html", "<p>body</p>"), ("raw_k.html", "")],
        [.staticCall "u"]) := by
  decide

/-- C2 (amended): when the primary strategy raises, `smart_fetch` falls back
exactly once, to the strategy OPPOSITE to what `force_js` requested: the
lightweight fetch when `force_js` is true, the browser fetch when `force_js`
is false.  In particular, when `force_js` is false and the browser fetch
reached via the script-heavy branch fails, the retry is the browser fetch
again — which, the environment being unchanged, fails again and propagates —
NOT the lightweight fetch (see `c2_counterexample`).  `hmiss` says the store
holds no usable blob, so the fetch stage is reached. -/
theorem c2_fallback_opposite (env : Env) (c : Cache) (url : String)
    (wait_css : Option String) (e : String)
    (hmiss : ∀ b, _cache_read c ("raw_" ++ env.key url ++ ".html") = some b → b = "")
    (hsel : env.page url wait_css = .error e) :
    (smart_fetch env c url true wait_css =
      (match fetch_static env url with
       | .error e2 => (.error e2, c, [.seleniumCall url wait_css, .staticCall url])
       | .ok alt =>
           (.ok alt, _cache_write c ("raw_" ++ env.key url ++ ".html") alt.html,
             [.seleniumCall url wait_css, .staticCall url]))) ∧
    (∀ e0, env.get url = .error e0 →
      smart_fetch env c url false wait_css =
        (.error e, c, [.staticCall url, .seleniumCall url wait_css])) ∧
    (∀ h0, env.get url = .ok h0 → looks_js_heavy env.parse h0 = true →
      smart_fetch env c url false wait_css =
        (.error e, c,
          [.staticCall url, .seleniumCall url wait_css, .seleniumCall url wait_css])) := by
  have hse : fetch_selenium env url wait_css = .error e := by
    simp [fetch_selenium, hsel]
  refine ⟨?_, ?_, ?_⟩
  · rw [smart_fetch_no_hit env c url true wait_css hmiss]
    cases hg : env.get url with
    | error e0 => simp [smart_fetch_try, smart_fetch_rescue, fetch_static, hse, hg]
    | ok b => simp [smart_fetch_try, smart_fetch_rescue, fetch_static, hse, hg]
  · intro e0 hg
    rw [smart_fetch_no_hit env c url false wait_css hmiss]
    simp [smart_fetch_try, smart_fetch_rescue, fetch_static, hse, hg]
  · intro h0 hg hheavy
    rw [smart_fetch_no_hit env c url false wait_css hmiss]
    simp [smart_fetch_try, smart_fetch_rescue, fetch_static, hse, hg, hheavy]

/-- Witness for `c2_fallback_opposite`: the browser always fails and the
static fetch returns script-heavy HTML. -/
theorem c2_fallback_opposite_witness :
    smart_fetch env_heavy_selfail [] "u" true none =
      (.ok ⟨"u", "requests", heavy_html,
          strip_noise env_heavy_selfail.parse heavy_html, 1⟩,
        [("raw_k.html", heavy_html)], [.seleniumCall "u" none, .staticCall "u"]) ∧
    smart_fetch env_heavy_selfail [] "u" false none =
      (.error "sel down", [],
        [.staticCall "u", .seleniumCall "u" none, .seleniumCall "u" none]) := by
  have h := c2_fallback_opposite env_heavy_selfail [] "u" none "sel down"
    (by intro b hb; simp [_cache_read] at hb) rfl
  refine ⟨?_, h.2.2 heavy_html rfl (by decide)⟩
  rw [h.1]
  decide

/-- C2 counterexample (claim as stated): `force_js` is false, the static
fetch succeeds with script-heavy HTML, and the browser fetch of step 3
fails.  The claim says the orchestrator retries with the lightweight fetch —
which here would succeed (second conjunct) — but the code retries with the
browser fetch again: the call fails with the browser invoked twice and the
lightweight strategy never retried. -/
theorem c2_counterexample :
    smart_fetch env_heavy_selfail [] "u" false none =
      (.error "sel down", [],
        [.staticCall "u", .seleniumCall "u" none, .seleniumCall "u" none]) ∧
    fetch_static env_heavy_selfail "u" =
      .ok ⟨"u", "requests", heavy_html, strip_noise parse400 heavy_html, 1⟩ := by
  decide

/-- C3: whenever `smart_fetch` returns an outcome whose method is not
"cache", the returned store holds, under the raw-HTML name for the URL's
fingerprint, exactly the outcome's HTML — every non-cache path writes
through before returning. -/
theorem c3_writethrough (env : Env) (c : Cache) (url : String)
    (force_js : Bool) (wait_css : Option String) (o : FetchResult)
    (c' : Cache) (ev : List Event)
    (h : smart_fetch env c url force_js wait_css = (.ok o, c', ev))
    (hm : o.method ≠ "cache") :
    _cache_read c' ("raw_" ++ env.key url ++ ".html") = some o.html :=
  smart_fetch_ok_writes env c url force_js wait_css o c' ev h hm

/-- Witness for `c3_writethrough`. -/
theorem c3_writethrough_witness :
    _cache_read [("raw_k.html", "<p>body</p>")]
        ("raw_" ++ env_light.key "u" ++ ".html") = some "<p>body</p>" :=
  c3_writethrough env_light [] "u" false none
    ⟨"u", "requests", "<p>body</p>", text400, 1⟩
    [("raw_k.html", "<p>body</p>")] [.staticCall "u"] (by decide) (by decide)

/-- C4 (amended): after a first `smart_fetch` returns successfully with a
non-cache outcome whose HTML is non-empty, an immediately following call for
the same URL (with any `force_js`/`wait_css`) returns method "cache" with
zero strategy invocations, elapsed 0, the store unchanged, and text equal to
the Noise Stripper applied to the HTML the first call persisted (by
`c3_writethrough`'s property, that HTML is the first outcome's).  The
non-emptiness hypothesis is forced by `if cached:` — see
`c4_counterexample`. -/
theorem c4_idempotent (env : Env) (c : Cache) (url : String) (f1 f2 : Bool)
    (w1 w2 : Option String) (o : FetchResult) (c1 : Cache) (ev : List Event)
    (h : smart_fetch env c url f1 w1 = (.ok o, c1, ev))
    (hm : o.method ≠ "cache") (hne : o.html ≠ "") :
    smart_fetch env c1 url f2 w2 =
      (.ok ⟨url, "cache", o.html, strip_noise env.parse o.html, 0⟩, c1, []) :=
  smart_fetch_cache_hit env c1 url f2 w2 o.html
    (smart_fetch_ok_writes env c url f1 w1 o c1 ev h hm) hne

/-- Witness for `c4_idempotent`: a first lightweight run from an empty
store, then a second call for the same URL. -/
theorem c4_idempotent_witness :
    smart_fetch env_light [("raw_k.html", "<p>body</p>")] "u" true (some "#app") =
      (.ok ⟨"u", "cache", "<p>body</p>",
          strip_noise env_light.parse "<p>body</p>", 0⟩,
        [("raw_k.html", "<p>body</p>")], []) :=
  c4_idempotent env_light [] "u" false true none (some "#app")
    ⟨"u", "requests", "<p>body</p>", text400, 1⟩
    [("raw_k.html", "<p>body</p>")] [.staticCall "u"]
    (by decide) (by decide) (by decide)

/-- C4 counterexample (claim as stated): the browser renders an empty page.
The first call succeeds with a non-cache outcome (method "selenium") and
persists the empty HTML; the second call finds the empty blob falsy, treats
it as a miss, launches the browser again, and returns method "selenium" —
not "cache" — with one more browser invocation. -/
theorem c4_counterexample :
    smart_fetch env_selempty [] "u" true none =
      (.ok ⟨"u", "selenium", "", "", 2⟩, [("raw_k.html", "")],
        [.seleniumCall "u" none]) ∧
    smart_fetch env_selempty [("raw_k.html", "")] "u" true none =
      (.ok ⟨"u", "selenium", "", "", 2⟩,
        [("raw_k.html", ""), ("raw_k.html", "")],
        [.seleniumCall "u" none]) := by
  decide

/-- C5: with `force_js` true, the browser fetch raising and the subsequent
lightweight fallback raising too, the call raises — the fallback's error
`e2` is the one propagated — rather than returning a degraded outcome, with
no further retry (exactly two invocations) and nothing written. -/
theorem c5_double_failure (env : Env) (c : Cache) (url : String)
    (wait_css : Option String) (e1 e2 : String)
    (hmiss : ∀ b, _cache_read c ("raw_" ++ env.key url ++ ".html") = some b → b = "")
    (hsel : env.page url wait_css = .error e1)
    (hstat : env.get url = .error e2) :
    smart_fetch env c url true wait_css =
      (.error e2, c, [.seleniumCall url wait_css, .staticCall url]) := by
  rw [smart_fetch_no_hit env c url true wait_css hmiss]
  simp [smart_fetch_try, smart_fetch_rescue, fetch_selenium, fetch_static, hsel, hstat]

/-- Witness for `c5_double_failure`. -/
theorem c5_double_failure_witness :
    smart_fetch env_bothfail [] "u" true none =
      (.error "net down", [], [.seleniumCall "u" none, .staticCall "u"]) :=
  c5_double_failure env_bothfail [] "u" none "sel down" "net down"
    (by intro b hb; simp [_cache_read] at hb) rfl rfl

/-- C6 (code bug): the claim — like §4.3 of the spec — counts
case-insensitive `<script` TAG OPENINGS, i.e. `<script` followed by
whitespace or `>` (`spec_script_openings`, the regex `<script[\s>]`).  The
shipped file doubles every backslash (compare the `print` of line 151), so
the regex actually written, `r'<script[\\s>]'`, matches `<script` followed
by a literal backslash, `s`, or `>`, and counts 0 on a page of 21 genuine
`<script defer>` openings.  With 400 characters of stripped text (so the
length branch is false as well), `looks_js_heavy` returns false where the
claim requires true. -/
theorem c6_code_divergence :
    looks_js_heavy parse400 html_spaced_scripts = false ∧
    spec_script_openings html_spaced_scripts.data = 21 ∧
    count_script_opens html_spaced_scripts.data = 0 ∧
    (strip_noise parse400 html_spaced_scripts).length = 400 := by
  decide

/-- C7: the text handed to the summarization service — `summarize_url`
computes `text = short(main_text, n=18000)` on line 128 and passes it
verbatim — is the original text when its length is at most 18000 characters,
and otherwise exactly the first 18000 characters followed by the single
one-character ellipsis marker '…'. -/
theorem c7_truncation (txt : String) :
    (txt.length ≤ 18000 → short txt 18000 = txt) ∧
    (18000 < txt.length →
      short txt 18000 = String.mk (txt.data.take 18000 ++ ['…']) ∧
      (short txt 18000).length = 18001) := by
  obtain ⟨l⟩ := txt
  have hlen : (String.mk l).length = l.length := rfl
  have happ : ∀ a b : List Char, String.mk a ++ String.mk b = String.mk (a ++ b) :=
    fun a b => rfl
  constructor
  · intro hle
    rw [hlen] at hle
    show String.mk (l.take 18000) ++ (if 18000 < l.length then "…" else "") = String.mk l
    rw [if_neg (by omega), List.take_of_length_le hle,
      show ("" : String) = String.mk [] from rfl, happ]
    simp
  · intro hlt
    rw [hlen] at hlt
    have h1 : short (String.mk l) 18000 = String.mk (l.take 18000 ++ ['…']) := by
      show String.mk (l.take 18000) ++ (if 18000 < l.length then "…" else "") =
        String.mk (l.take 18000 ++ ['…'])
      rw [if_pos hlt, show ("…" : String) = String.mk ['…'] from rfl, happ]
    refine ⟨h1, ?_⟩
    rw [h1]
    show (l.take 18000 ++ ['…']).length = 18001
    rw [List.length_append, List.length_take]
    show min 18000 l.length + 1 = 18001
    omega

/-- Witness for `c7_truncation` at a short string and at an 18001-character
string. -/
theorem c7_truncation_witness :
    short "ab" 18000 = "ab" ∧
    short (String.mk (List.replicate 18001 'a')) 18000 =
      String.mk ((List.replicate 18001 'a').take 18000 ++ ['…']) := by
  refine ⟨(c7_truncation "ab").1 (by decide), ?_⟩
  exact ((c7_truncation (String.mk (List.replicate 18001 'a'))).2 (by
    show 18000 < (List.replicate 18001 'a').length
    rw [List.length_replicate]
    omega)).1

/-- C8: the Noise Stripper's output is assembled exclusively from the text
fragments lying OUTSIDE every script/style/noscript subtree (`clean_texts`):
no text content of those elements or of their descendants contributes to the
output string. -/
theorem c8_no_noise_text (parse : String → Forest) (html_text : String) :
    strip_noise parse html_text =
      String.intercalate " "
        (((clean_texts (parse html_text)).map py_strip).filter (fun s => s != "")) := by
  unfold strip_noise get_text_sep_strip
  rw [forest_texts_extract]

/-- C9: `extract_main_content` is total by construction — it never raises —
and when the readability collaborator raises any error it returns the pair
of an empty title and the Noise Stripper's output over the entire original
HTML. -/
theorem c9_extract_fallback (env : Env) (html_text url e : String)
    (h : env.readability html_text = .error e) :
    extract_main_content env html_text url =
      ("", strip_noise env.parse html_text) := by
  unfold extract_main_content
  rw [h]

/-- Witness for `c9_extract_fallback`. -/
theorem c9_extract_fallback_witness :
    extract_main_content env_light "<p>body</p>" "u" =
      ("", strip_noise env_light.parse "<p>body</p>") :=
  c9_extract_fallback env_light "<p>body</p>" "u" "readability" rfl

end JsSummarizer
